import Mathlib

/-!
# system-metrics-dashboard: a shallow embedding of `main.go`

The program samples host statistics (`getMetrics`), registers three observable
gauges and one observation callback (`recordMetrics`) and then serves HTTP
(`main`).  Everything the program does to the outside world is a call into a
library (gopsutil, OpenTelemetry, net/http, log).  The embedding therefore

* takes the answers of those libraries as inputs (`OSStat`, `Meter`, `Env`),
* writes every library call into a trace, in program order, and
* ends every run in an `Outcome`: a normal return, a Go run-time panic, a
  process exit (`log.Fatal` / `log.Fatalf` call `os.Exit(1)`), or a call that
  does not come back.

Go types: `uint64` values are natural numbers (the only arithmetic is a
division by a non-zero constant, which cannot wrap), `float64` is `Float`,
the conversion `float64(n)` of an unsigned integer is `Float.ofNat`, a
pointer is an `Option` (`nil` is `none`), an `error` is an `Option String`
(`nil` is `none`), a slice is a `List`.

The three library calls of `getMetrics` come first and the struct literal is
evaluated after them, field by field: `cpuPercent[0]`, then the two reads
through `vmStat`, then the two reads through `diskStat`.

The request handler (`handler`, which renders a template from one
`getMetrics` snapshot) is not part of this development; `main` only records
that a route for "/" is installed.
-/

namespace SystemMetricsDashboard

/-! ## Go run-time model -/

/-- Go `error` value: `none` is the nil error. -/
abbrev GoError := Option String

/-- Run-time panics that the program text can reach. -/
inductive Panic where
  | indexOutOfRange (index length : Nat)
  | nilDereference
  deriving DecidableEq, Repr

/-- How a run of a piece of the program ends. -/
inductive Outcome (α : Type) where
  | returned (a : α)
  | panicked (p : Panic)
  | exited (code : Nat)
  | blocked
  deriving Repr

/-- A run: the library calls made, in order, and how the run ended. -/
structure Run (ε α : Type) where
  trace : List ε
  outcome : Outcome α

/-- Sequencing: the second part runs only when the first returned. -/
def Run.bind {ε α β : Type} (x : Run ε α) (f : α → Run ε β) : Run ε β :=
  match x.outcome with
  | .returned a => ⟨x.trace ++ (f a).trace, (f a).outcome⟩
  | .panicked p => ⟨x.trace, .panicked p⟩
  | .exited c => ⟨x.trace, .exited c⟩
  | .blocked => ⟨x.trace, .blocked⟩

instance {ε : Type} : Monad (Run ε) where
  pure a := ⟨[], .returned a⟩
  bind := Run.bind

/-- One library call that answers `a`. -/
def call {ε α : Type} (e : ε) (a : α) : Run ε α := ⟨[e], .returned a⟩

/-- Slice indexing `xs[i]`: panics when `i` is out of range. -/
def index {ε α : Type} (xs : List α) (i : Nat) : Run ε α :=
  match xs[i]? with
  | some x => ⟨[], .returned x⟩
  | none => ⟨[], .panicked (.indexOutOfRange i xs.length)⟩

/-- Field selection `p.f` through a pointer: panics when `p` is nil. -/
def field {ε σ α : Type} (p : Option σ) (f : σ → α) : Run ε α :=
  match p with
  | some s => ⟨[], .returned (f s)⟩
  | none => ⟨[], .panicked .nilDereference⟩

/-! ## Data model -/

/-- The `mem.VirtualMemoryStat` fields the program reads (bytes). -/
structure VirtualMemoryStat where
  Total : Nat
  Used : Nat
  deriving DecidableEq, Repr

/-- The `disk.UsageStat` fields the program reads (bytes). -/
structure UsageStat where
  Total : Nat
  Used : Nat
  deriving DecidableEq, Repr

/-- The `Metrics` struct of `main.go`. -/
structure Metrics where
  CPUUsage : Float
  MemoryUsed : Nat
  MemoryTotal : Nat
  DiskUsed : Nat
  DiskTotal : Nat
  deriving Repr

/-- Instrument handle returned by the meter. -/
structure Gauge where
  handle : Nat
  deriving DecidableEq, Repr

/-- Calls made while sampling and observing. -/
inductive Effect where
  | cpuPercent (interval : Nat) (percpu : Bool)
  | virtualMemory
  | diskUsage (path : String)
  | observeFloat64 (inst : Gauge) (value : Float)

/-- The answers of gopsutil at the time of one `getMetrics` call. -/
structure OSStat where
  Percent : Nat → Bool → List Float × GoError
  VirtualMemory : Option VirtualMemoryStat × GoError
  Usage : String → Option UsageStat × GoError

/-- The duration `time.Second`, in nanoseconds. -/
def timeSecond : Nat := 1000000000

/-! ## `getMetrics` -/

/-- The function `getMetrics` of `main.go`. -/
def getMetrics (os : OSStat) : Run Effect Metrics := do
  let (cpuPercent, _) ← call (.cpuPercent timeSecond false) (os.Percent timeSecond false)
  let (vmStat, _) ← call .virtualMemory os.VirtualMemory
  let (diskStat, _) ← call (.diskUsage "/") (os.Usage "/")
  let cpuUsage ← index cpuPercent 0
  let memoryUsed ← field vmStat (fun s => s.Used / (1024 * 1024))
  let memoryTotal ← field vmStat (fun s => s.Total / (1024 * 1024))
  let diskUsed ← field diskStat (fun s => s.Used / (1024 * 1024 * 1024))
  let diskTotal ← field diskStat (fun s => s.Total / (1024 * 1024 * 1024))
  return {
    CPUUsage := cpuUsage
    MemoryUsed := memoryUsed
    MemoryTotal := memoryTotal
    DiskUsed := diskUsed
    DiskTotal := diskTotal
  }

/-! ## `recordMetrics` -/

/-- An observation callback as the metrics pipeline sees it: invoked while
the host answers `os`, it makes calls and returns an `error`. -/
abbrev Callback := OSStat → Run Effect GoError

/-- The anonymous function that `recordMetrics` hands to
`meter.RegisterCallback`, closed over the three gauges. -/
def recordMetricsCallback (cpuGauge memGauge diskGauge : Gauge) : Callback := fun os => do
  let m ← getMetrics os
  call (.observeFloat64 cpuGauge m.CPUUsage) ()
  call (.observeFloat64 memGauge (Float.ofNat m.MemoryUsed)) ()
  call (.observeFloat64 diskGauge (Float.ofNat m.DiskUsed)) ()
  return none

/-- The two methods of `otelmetric.Meter` that the program calls, with the
answers of the meter in use. -/
structure Meter where
  Float64ObservableGauge : String → Gauge × GoError
  RegisterCallback : Callback → List Gauge → GoError

/-- Calls made during start-up. -/
inductive Startup where
  | newMeterProvider
  | setMeterProvider
  | providerMeter (name : String)
  | float64ObservableGauge (name : String)
  | registerCallback (f : Callback) (insts : List Gauge)
  | logFatalf (msg : String)
  | handleFunc (pattern : String)
  | logPrintln (msg : String)
  | listenAndServe (addr : String)
  | logFatal (msg : String)

/-- The calls `log.Fatalf` and `log.Fatal`: write the message, then
`os.Exit(1)`. -/
def fatal {ε α : Type} (e : ε) : Run ε α := ⟨[e], .exited 1⟩

/-- The function `recordMetrics` of `main.go`; the package variable `meter`
is passed in. -/
def recordMetrics (meter : Meter) : Run Startup Unit := do
  let (cpuGauge, _) ←
    call (.float64ObservableGauge "cpu.usage") (meter.Float64ObservableGauge "cpu.usage")
  let (memGauge, _) ←
    call (.float64ObservableGauge "memory.used") (meter.Float64ObservableGauge "memory.used")
  let (diskGauge, _) ←
    call (.float64ObservableGauge "disk.used") (meter.Float64ObservableGauge "disk.used")
  let f := recordMetricsCallback cpuGauge memGauge diskGauge
  let insts := [cpuGauge, memGauge, diskGauge]
  let err ← call (.registerCallback f insts) (meter.RegisterCallback f insts)
  match err with
  | some e => fatal (.logFatalf ("Failed to register callback: " ++ e))
  | none => pure ()

/-! ## `main` -/

/-- What start-up gets from outside the program: the meter that
`provider.Meter` hands out, and what `http.ListenAndServe` does (`some err`:
it returned `err`; `none`: it keeps serving and does not return). -/
structure Env where
  Meter : String → Meter
  ListenAndServe : String → Option String

/-- The function `initMeter` of `main.go`; the value it stores in the package
variable `meter` is returned. -/
def initMeter (env : Env) : Run Startup Meter := do
  call .newMeterProvider ()
  call .setMeterProvider ()
  call (.providerMeter "system-metrics-dashboard") (env.Meter "system-metrics-dashboard")

/-- The call `http.ListenAndServe(addr, nil)`. -/
def listenAndServe (env : Env) (addr : String) : Run Startup String :=
  match env.ListenAndServe addr with
  | some err => ⟨[.listenAndServe addr], .returned err⟩
  | none => ⟨[.listenAndServe addr], .blocked⟩

/-- The function `main` of `main.go`. -/
def main (env : Env) : Run Startup Unit := do
  let meter ← initMeter env
  recordMetrics meter
  call (.handleFunc "/") ()
  call (.logPrintln "Server started at :8080") ()
  let err ← listenAndServe env ":8080"
  fatal (.logFatal err)

/-! ## Names used in the statements -/

/-- The three queries every `getMetrics` call makes. -/
def queries : List Effect :=
  [.cpuPercent timeSecond false, .virtualMemory, .diskUsage "/"]

/-- Outcome of the struct literal of `getMetrics`, by the values of the three
answers, in evaluation order. -/
def literalOutcome (cpuPercent : List Float) (vmStat : Option VirtualMemoryStat)
    (diskStat : Option UsageStat) : Outcome Metrics :=
  match cpuPercent, vmStat, diskStat with
  | [], _, _ => .panicked (.indexOutOfRange 0 0)
  | _ :: _, none, _ => .panicked .nilDereference
  | _ :: _, some _, none => .panicked .nilDereference
  | c :: _, some vm, some du => .returned
      { CPUUsage := c
        MemoryUsed := vm.Used / 2 ^ 20
        MemoryTotal := vm.Total / 2 ^ 20
        DiskUsed := du.Used / 2 ^ 30
        DiskTotal := du.Total / 2 ^ 30 }

/-- The gauge the meter hands out for `name`. -/
def gaugeOf (meter : Meter) (name : String) : Gauge := (meter.Float64ObservableGauge name).1

/-- The callback `recordMetrics` builds for `meter`. -/
def callbackOf (meter : Meter) : Callback :=
  recordMetricsCallback (gaugeOf meter "cpu.usage") (gaugeOf meter "memory.used")
    (gaugeOf meter "disk.used")

/-- The instruments `recordMetrics` registers the callback over. -/
def instsOf (meter : Meter) : List Gauge :=
  [gaugeOf meter "cpu.usage", gaugeOf meter "memory.used", gaugeOf meter "disk.used"]

/-- The answer of `meter.RegisterCallback` to the call `recordMetrics` makes. -/
def registrationOf (meter : Meter) : GoError :=
  meter.RegisterCallback (callbackOf meter) (instsOf meter)

/-- The calls `recordMetrics` makes before it looks at the registration
error. -/
def registrationCalls (meter : Meter) : List Startup :=
  [.float64ObservableGauge "cpu.usage", .float64ObservableGauge "memory.used",
    .float64ObservableGauge "disk.used", .registerCallback (callbackOf meter) (instsOf meter)]

/-- The calls of `initMeter`. -/
def initCalls : List Startup :=
  [.newMeterProvider, .setMeterProvider, .providerMeter "system-metrics-dashboard"]

/-- Whether a call is an observation. -/
def Effect.isObservation : Effect → Bool
  | .observeFloat64 _ _ => true
  | _ => false

/-- Whether a start-up call is a callback registration. -/
def Startup.isRegistration : Startup → Bool
  | .registerCallback _ _ => true
  | _ => false

/-! ## Concrete inputs -/

/-- The scenario of the specification: CPU 42.5 %, memory 2048 of 8192 MiB,
root disk 100 of 500 GiB, no errors. -/
def scenarioOS : OSStat where
  Percent := fun _ _ => ([42.5], none)
  VirtualMemory := (some { Total := 8192 * 2 ^ 20, Used := 2048 * 2 ^ 20 }, none)
  Usage := fun _ => (some { Total := 500 * 2 ^ 30, Used := 100 * 2 ^ 30 }, none)

/-- A host on which the memory query fails (no stat record, an error) while
the CPU and disk queries succeed. -/
def memoryFailureOS : OSStat where
  Percent := fun _ _ => ([42.5], none)
  VirtualMemory := (none, some "open /proc/meminfo: no such file or directory")
  Usage := fun _ => (some { Total := 500 * 2 ^ 30, Used := 100 * 2 ^ 30 }, none)

/-- A host that answers the queried window and path like `scenarioOS` and
everything else differently. -/
def otherOS : OSStat where
  Percent := fun interval percpu =>
    if interval = timeSecond ∧ percpu = false then ([42.5], none) else ([1.0, 2.0], none)
  VirtualMemory := (some { Total := 8192 * 2 ^ 20, Used := 2048 * 2 ^ 20 }, none)
  Usage := fun path =>
    if path = "/" then (some { Total := 500 * 2 ^ 30, Used := 100 * 2 ^ 30 }, none)
    else (none, some "no such file or directory")

/-- A host whose answers all carry a value and an error at once. -/
def noisyOS : OSStat where
  Percent := fun _ _ => ([7.25, 3.5], some "short read")
  VirtualMemory := (some { Total := 3 * 2 ^ 20 + 5, Used := 2 ^ 20 - 1 }, some "short read")
  Usage := fun _ => (some { Total := 2 ^ 31 + 9, Used := 2 ^ 30 - 1 }, some "short read")

/-- A host whose byte counts are just below or just above a unit boundary. -/
def boundaryOS : OSStat where
  Percent := fun _ _ => ([0.5], none)
  VirtualMemory := (some { Total := 3 * 2 ^ 20 + 5, Used := 2 ^ 20 - 1 }, none)
  Usage := fun _ => (some { Total := 2 ^ 31 + 9, Used := 2 ^ 30 - 1 }, none)

/-- A meter that creates every gauge and accepts the registration. -/
def goodMeter : Meter where
  Float64ObservableGauge := fun name => (⟨name.length⟩, none)
  RegisterCallback := fun _ _ => none

/-- A meter that creates every gauge and rejects the registration. -/
def rejectingMeter : Meter where
  Float64ObservableGauge := fun name => (⟨name.length⟩, none)
  RegisterCallback := fun _ _ => some "callback rejected"

/-- A meter whose gauge creation always fails and whose registration
succeeds. -/
def gaugeFailureMeter : Meter where
  Float64ObservableGauge := fun _ => (⟨0⟩, some "instrument creation failed")
  RegisterCallback := fun _ _ => none

/-- A meter whose gauge creation always fails and whose registration fails
too. -/
def brokenMeter : Meter where
  Float64ObservableGauge := fun _ => (⟨0⟩, some "instrument creation failed")
  RegisterCallback := fun _ _ => some "invalid observable"

/-- A process environment around `meter` whose HTTP server keeps serving. -/
def envOf (meter : Meter) : Env where
  Meter := fun _ => meter
  ListenAndServe := fun _ => none

/-! ## Sequencing lemmas -/

section RunLemmas

variable {ε α β σ : Type}

theorem call_bind (e : ε) (a : α) (f : α → Run ε β) :
    (call e a >>= f) = ⟨e :: (f a).trace, (f a).outcome⟩ := rfl

theorem index_zero_cons_bind (x : α) (xs : List α) (f : α → Run ε β) :
    (index (x :: xs) 0 >>= f) = f x := by
  simp [index, bind, Run.bind]

theorem index_zero_nil_bind (f : α → Run ε β) :
    (index ([] : List α) 0 >>= f) = ⟨[], .panicked (.indexOutOfRange 0 0)⟩ := by
  simp [index, bind, Run.bind]

theorem field_some_bind (s : σ) (g : σ → α) (f : α → Run ε β) :
    (field (some s) g >>= f) = f (g s) := rfl

theorem field_none_bind (g : σ → α) (f : α → Run ε β) :
    (field (none : Option σ) g >>= f) = ⟨[], .panicked .nilDereference⟩ := rfl

theorem bind_returned (t : List ε) (a : α) (f : α → Run ε β) :
    ((⟨t, .returned a⟩ : Run ε α) >>= f) = ⟨t ++ (f a).trace, (f a).outcome⟩ := rfl

theorem bind_exited (t : List ε) (c : Nat) (f : α → Run ε β) :
    ((⟨t, .exited c⟩ : Run ε α) >>= f) = ⟨t, .exited c⟩ := rfl

theorem bind_blocked (t : List ε) (f : α → Run ε β) :
    ((⟨t, .blocked⟩ : Run ε α) >>= f) = ⟨t, .blocked⟩ := rfl

theorem pure_eq (a : α) : (pure a : Run ε α) = ⟨[], .returned a⟩ := rfl

end RunLemmas

/-! ## Normal forms -/

/-- Normal form of `getMetrics`: it makes the three queries, and its outcome
is a function of the value components of their answers. -/
theorem getMetrics_normal (os : OSStat) :
    getMetrics os = ⟨queries, literalOutcome (os.Percent timeSecond false).1
      os.VirtualMemory.1 (os.Usage "/").1⟩ := by
  rcases hp : os.Percent timeSecond false with ⟨xs, e1⟩
  rcases hv : os.VirtualMemory with ⟨v, e2⟩
  rcases hu : os.Usage "/" with ⟨u, e3⟩
  simp only [getMetrics, hp, hv, hu, call_bind]
  cases xs with
  | nil => simp only [index_zero_nil_bind]; rfl
  | cons c cs =>
    cases v with
    | none => simp only [index_zero_cons_bind, field_none_bind]; rfl
    | some vm =>
      cases u with
      | none => simp only [index_zero_cons_bind, field_some_bind, field_none_bind]; rfl
      | some du => simp only [index_zero_cons_bind, field_some_bind, pure_eq]; rfl

/-- The outcome of `getMetrics` when the three queries succeed. -/
theorem getMetrics_of_success (os : OSStat) (c : Float) (cs : List Float) (mu mt du dt : Nat)
    (hc : os.Percent timeSecond false = (c :: cs, none))
    (hm : os.VirtualMemory = (some { Total := mt, Used := mu }, none))
    (hd : os.Usage "/" = (some { Total := dt, Used := du }, none)) :
    (getMetrics os).outcome = .returned
      { CPUUsage := c
        MemoryUsed := mu / 2 ^ 20
        MemoryTotal := mt / 2 ^ 20
        DiskUsed := du / 2 ^ 30
        DiskTotal := dt / 2 ^ 30 } := by
  rw [getMetrics_normal, hc, hm, hd]
  rfl

/-- The outcome of `getMetrics` is a return or a panic. -/
theorem getMetrics_outcome (os : OSStat) :
    (∃ m, (getMetrics os).outcome = .returned m) ∨ ∃ p, (getMetrics os).outcome = .panicked p := by
  rw [getMetrics_normal]
  rcases (os.Percent timeSecond false).1 with _ | ⟨c, cs⟩
  · exact Or.inr ⟨_, rfl⟩
  · rcases os.VirtualMemory.1 with _ | vm
    · exact Or.inr ⟨_, rfl⟩
    · rcases (os.Usage "/").1 with _ | du
      · exact Or.inr ⟨_, rfl⟩
      · exact Or.inl ⟨_, rfl⟩

/-- Whenever a query yields no value (an empty CPU list, a nil memory or disk
record), `getMetrics` panics instead of returning a `Metrics`. -/
theorem getMetrics_panics_of_missing (os : OSStat)
    (h : (os.Percent timeSecond false).1 = [] ∨ os.VirtualMemory.1 = none ∨
      (os.Usage "/").1 = none) :
    ∃ p, (getMetrics os).outcome = .panicked p := by
  rw [getMetrics_normal]
  rcases hp : (os.Percent timeSecond false).1 with _ | ⟨c, cs⟩
  · exact ⟨_, rfl⟩
  · rcases hv : os.VirtualMemory.1 with _ | vm
    · exact ⟨_, rfl⟩
    · rcases hu : (os.Usage "/").1 with _ | du
      · exact ⟨_, rfl⟩
      · rw [hp, hv, hu] at h
        simp at h

/-- Normal form of the callback: one `getMetrics` call, then, when it
returned `m`, the three observations of `m` and a nil error. -/
theorem recordMetricsCallback_normal (cpuGauge memGauge diskGauge : Gauge) (os : OSStat) :
    recordMetricsCallback cpuGauge memGauge diskGauge os
      = Run.bind (getMetrics os) (fun m =>
          ⟨[.observeFloat64 cpuGauge m.CPUUsage,
            .observeFloat64 memGauge (Float.ofNat m.MemoryUsed),
            .observeFloat64 diskGauge (Float.ofNat m.DiskUsed)], .returned none⟩) := rfl

/-- On every invocation in which `getMetrics` returns a snapshot `m`, the
callback makes the three queries of one `getMetrics` call, records exactly
the three observations of `m` and returns a nil error. -/
theorem recordMetricsCallback_returned (cpuGauge memGauge diskGauge : Gauge) (os : OSStat)
    (m : Metrics) (h : (getMetrics os).outcome = .returned m) :
    recordMetricsCallback cpuGauge memGauge diskGauge os
      = ⟨queries ++ [.observeFloat64 cpuGauge m.CPUUsage,
            .observeFloat64 memGauge (Float.ofNat m.MemoryUsed),
            .observeFloat64 diskGauge (Float.ofNat m.DiskUsed)], .returned none⟩ := by
  rw [recordMetricsCallback_normal]
  simp only [Run.bind, h]
  rw [getMetrics_normal]

/-- When `getMetrics` panics, so does the callback, after the three queries
and without any observation. -/
theorem recordMetricsCallback_panicked (cpuGauge memGauge diskGauge : Gauge) (os : OSStat)
    (p : Panic) (h : (getMetrics os).outcome = .panicked p) :
    recordMetricsCallback cpuGauge memGauge diskGauge os = ⟨queries, .panicked p⟩ := by
  rw [recordMetricsCallback_normal]
  simp only [Run.bind, h]
  rw [getMetrics_normal]

/-- Normal form of `recordMetrics`: three gauge creations, one registration,
and then a fatal log exactly when the registration answered an error. -/
theorem recordMetrics_normal (meter : Meter) :
    recordMetrics meter = match registrationOf meter with
      | some e => ⟨registrationCalls meter ++ [.logFatalf ("Failed to register callback: " ++ e)],
          .exited 1⟩
      | none => ⟨registrationCalls meter, .returned ()⟩ := by
  unfold registrationCalls registrationOf callbackOf instsOf gaugeOf
  rcases h1 : meter.Float64ObservableGauge "cpu.usage" with ⟨g1, e1⟩
  rcases h2 : meter.Float64ObservableGauge "memory.used" with ⟨g2, e2⟩
  rcases h3 : meter.Float64ObservableGauge "disk.used" with ⟨g3, e3⟩
  simp only [recordMetrics, h1, h2, h3, call_bind]
  cases meter.RegisterCallback (recordMetricsCallback g1 g2 g3) [g1, g2, g3] <;> rfl

/-- The one registration `recordMetrics` makes: the callback over exactly the
gauges the meter handed out for `cpu.usage`, `memory.used` and `disk.used`,
whatever the meter answers. -/
theorem recordMetrics_registers_once (meter : Meter) :
    (recordMetrics meter).trace.filter Startup.isRegistration
      = [.registerCallback
          (recordMetricsCallback (meter.Float64ObservableGauge "cpu.usage").1
            (meter.Float64ObservableGauge "memory.used").1
            (meter.Float64ObservableGauge "disk.used").1)
          [(meter.Float64ObservableGauge "cpu.usage").1,
            (meter.Float64ObservableGauge "memory.used").1,
            (meter.Float64ObservableGauge "disk.used").1]] := by
  rw [recordMetrics_normal]
  cases registrationOf meter <;> rfl

/-- Normal form of `main` when the registration fails: the process exits
after the fatal log. -/
theorem main_of_registration_error (env : Env) (e : String)
    (h : registrationOf (env.Meter "system-metrics-dashboard") = some e) :
    main env = ⟨initCalls ++ registrationCalls (env.Meter "system-metrics-dashboard")
      ++ [.logFatalf ("Failed to register callback: " ++ e)], .exited 1⟩ := by
  have hr := recordMetrics_normal (env.Meter "system-metrics-dashboard")
  rw [h] at hr
  simp only [main, initMeter, call, bind_returned, bind_exited, hr]
  rfl

/-- Normal form of `main` when the registration succeeds: the route is
installed and `http.ListenAndServe` is called. -/
theorem main_of_registration_ok (env : Env)
    (h : registrationOf (env.Meter "system-metrics-dashboard") = none) :
    main env = ⟨initCalls ++ registrationCalls (env.Meter "system-metrics-dashboard")
        ++ [.handleFunc "/", .logPrintln "Server started at :8080", .listenAndServe ":8080"]
        ++ (match env.ListenAndServe ":8080" with
            | some err => [.logFatal err]
            | none => []),
      match env.ListenAndServe ":8080" with
      | some _ => .exited 1
      | none => .blocked⟩ := by
  have hr := recordMetrics_normal (env.Meter "system-metrics-dashboard")
  rw [h] at hr
  simp only [main, initMeter, call, bind_returned, hr, listenAndServe]
  cases env.ListenAndServe ":8080" <;>
    simp only [bind_returned, bind_blocked, fatal] <;> rfl

/-! ## The claims -/

/-- C1: when all three queries succeed (CPU list with first element `c`,
memory used/total of `mu`/`mt` bytes, root-disk used/total of `du`/`dt`
bytes), `getMetrics` returns exactly
`Metrics{c, mu / 2^20, mt / 2^20, du / 2^30, dt / 2^30}`, the divisions being
truncating divisions of unsigned integers. -/
theorem getMetrics_converts (os : OSStat) (c : Float) (cs : List Float) (mu mt du dt : Nat)
    (hc : os.Percent timeSecond false = (c :: cs, none))
    (hm : os.VirtualMemory = (some { Total := mt, Used := mu }, none))
    (hd : os.Usage "/" = (some { Total := dt, Used := du }, none)) :
    (getMetrics os).outcome = .returned
      { CPUUsage := c
        MemoryUsed := mu / 2 ^ 20
        MemoryTotal := mt / 2 ^ 20
        DiskUsed := du / 2 ^ 30
        DiskTotal := dt / 2 ^ 30 } :=
  getMetrics_of_success os c cs mu mt du dt hc hm hd

/-- C1, the scenario of the specification: CPU 42.5, memory 2048 of 8192 MiB,
disk 100 of 500 GiB give `{42.5, 2048, 8192, 100, 500}`. -/
theorem getMetrics_converts_scenario :
    (getMetrics scenarioOS).outcome = .returned
      { CPUUsage := 42.5
        MemoryUsed := 2048
        MemoryTotal := 8192
        DiskUsed := 100
        DiskTotal := 500 } :=
  getMetrics_converts scenarioOS 42.5 [] (2048 * 2 ^ 20) (8192 * 2 ^ 20) (100 * 2 ^ 30)
    (500 * 2 ^ 30) rfl rfl rfl

/-- C2: for every valid response (all three queries succeed, memory used at
most memory total, disk used at most disk total) the returned `Metrics` has
`MemoryUsed ≤ MemoryTotal` and `DiskUsed ≤ DiskTotal`. -/
theorem getMetrics_ordered (os : OSStat) (c : Float) (cs : List Float) (mu mt du dt : Nat)
    (hc : os.Percent timeSecond false = (c :: cs, none))
    (hm : os.VirtualMemory = (some { Total := mt, Used := mu }, none))
    (hd : os.Usage "/" = (some { Total := dt, Used := du }, none))
    (hmem : mu ≤ mt) (hdisk : du ≤ dt) :
    ∃ m, (getMetrics os).outcome = .returned m ∧
      m.MemoryUsed ≤ m.MemoryTotal ∧ m.DiskUsed ≤ m.DiskTotal := by
  refine ⟨_, getMetrics_of_success os c cs mu mt du dt hc hm hd, ?_, ?_⟩
  · exact Nat.div_le_div_right hmem
  · exact Nat.div_le_div_right hdisk

/-- C2 at the scenario of the specification. -/
theorem getMetrics_ordered_scenario :
    ∃ m, (getMetrics scenarioOS).outcome = .returned m ∧
      m.MemoryUsed ≤ m.MemoryTotal ∧ m.DiskUsed ≤ m.DiskTotal :=
  getMetrics_ordered scenarioOS 42.5 [] (2048 * 2 ^ 20) (8192 * 2 ^ 20) (100 * 2 ^ 30)
    (500 * 2 ^ 30) rfl rfl rfl (by decide) (by decide)

/-- C3, at a failing memory query: the memory query returns no stat record,
CPU and disk succeed, and `getMetrics` does not return a `Metrics` with
`MemoryUsed = 0` and `MemoryTotal = 0`: after the three queries it panics on
the nil `vmStat`. -/
theorem getMetrics_memoryFailure :
    getMetrics memoryFailureOS
        = ⟨[.cpuPercent 1000000000 false, .virtualMemory, .diskUsage "/"],
            .panicked .nilDereference⟩ ∧
      ∀ m, (getMetrics memoryFailureOS).outcome ≠ .returned m := by
  rw [getMetrics_normal]
  refine ⟨rfl, ?_⟩
  intro m h
  simp [literalOutcome, memoryFailureOS] at h

/-- C4, at a failing memory query: invoked while the memory query returns no
stat record, the callback makes the three queries of its one `getMetrics`
call and then panics; it records no observation at all. -/
theorem recordMetricsCallback_memoryFailure (cpuGauge memGauge diskGauge : Gauge) :
    recordMetricsCallback cpuGauge memGauge diskGauge memoryFailureOS
        = ⟨[.cpuPercent 1000000000 false, .virtualMemory, .diskUsage "/"],
            .panicked .nilDereference⟩ ∧
      ((recordMetricsCallback cpuGauge memGauge diskGauge memoryFailureOS).trace.filter
        Effect.isObservation).length = 0 := by
  have h := recordMetricsCallback_panicked cpuGauge memGauge diskGauge memoryFailureOS
    .nilDereference (by rw [getMetrics_normal]; rfl)
  rw [h]
  exact ⟨rfl, rfl⟩

/-- C5 as stated fails: there is a meter whose gauge creation returns an
error for every gauge, and with which `main` still reaches
`http.ListenAndServe`. -/
theorem main_serves_despite_gauge_failure :
    ¬ ∀ env : Env,
      (∃ name ∈ ["cpu.usage", "memory.used", "disk.used"],
        ((env.Meter "system-metrics-dashboard").Float64ObservableGauge name).2 ≠ none) →
      ∀ addr, Startup.listenAndServe addr ∉ (main env).trace := by
  intro h
  refine h (envOf gaugeFailureMeter) ⟨"cpu.usage", by simp, ?_⟩ ":8080" ?_
  · simp [envOf, gaugeFailureMeter]
  · rw [main_of_registration_ok (envOf gaugeFailureMeter) rfl]
    simp

/-- C5, amended: when creation of a gauge fails, `recordMetrics` discards the
error.  The process reports a fatal error and exits before
`http.ListenAndServe` exactly when the registration that follows returns an
error; when the registration succeeds, `main` goes on to
`http.ListenAndServe`. -/
theorem main_gauge_failure (env : Env)
    (h : ∃ name ∈ ["cpu.usage", "memory.used", "disk.used"],
      ((env.Meter "system-metrics-dashboard").Float64ObservableGauge name).2 ≠ none) :
    (∀ e, registrationOf (env.Meter "system-metrics-dashboard") = some e →
        (main env).outcome = .exited 1 ∧
        .logFatalf ("Failed to register callback: " ++ e) ∈ (main env).trace ∧
        ∀ addr, Startup.listenAndServe addr ∉ (main env).trace) ∧
      (registrationOf (env.Meter "system-metrics-dashboard") = none →
        Startup.listenAndServe ":8080" ∈ (main env).trace) := by
  rcases h with ⟨-, -, -⟩
  constructor
  · intro e he
    rw [main_of_registration_error env e he]
    simp [initCalls, registrationCalls]
  · intro hn
    rw [main_of_registration_ok env hn]
    simp

/-- C5, amended, at a meter whose gauge creation and registration both fail
(the process exits) and at one whose gauge creation fails and whose
registration succeeds (the process serves). -/
theorem main_gauge_failure_meters :
    ((main (envOf brokenMeter)).outcome = .exited 1 ∧
        .logFatalf "Failed to register callback: invalid observable"
          ∈ (main (envOf brokenMeter)).trace ∧
        ∀ addr, Startup.listenAndServe addr ∉ (main (envOf brokenMeter)).trace) ∧
      Startup.listenAndServe ":8080" ∈ (main (envOf gaugeFailureMeter)).trace :=
  ⟨(main_gauge_failure (envOf brokenMeter)
      ⟨"cpu.usage", by simp, by simp [envOf, brokenMeter]⟩).1 "invalid observable" rfl,
    (main_gauge_failure (envOf gaugeFailureMeter)
      ⟨"cpu.usage", by simp, by simp [envOf, gaugeFailureMeter]⟩).2 rfl⟩

/-- C6: when `meter.RegisterCallback` returns a non-nil error, `recordMetrics`
ends the process with a fatal log, and `main`, which calls `recordMetrics`
before it installs the route and calls `http.ListenAndServe`, does neither;
when the registration succeeds, `recordMetrics` returns normally and `main`
installs the route and calls `http.ListenAndServe`. -/
theorem main_registration (env : Env) :
    (∀ e, registrationOf (env.Meter "system-metrics-dashboard") = some e →
        recordMetrics (env.Meter "system-metrics-dashboard")
          = ⟨registrationCalls (env.Meter "system-metrics-dashboard")
              ++ [.logFatalf ("Failed to register callback: " ++ e)], .exited 1⟩ ∧
        (main env).outcome = .exited 1 ∧
        (∀ pattern, Startup.handleFunc pattern ∉ (main env).trace) ∧
        (∀ addr, Startup.listenAndServe addr ∉ (main env).trace)) ∧
      (registrationOf (env.Meter "system-metrics-dashboard") = none →
        recordMetrics (env.Meter "system-metrics-dashboard")
          = ⟨registrationCalls (env.Meter "system-metrics-dashboard"), .returned ()⟩ ∧
        ∃ rest, (main env).trace
          = initCalls ++ (recordMetrics (env.Meter "system-metrics-dashboard")).trace
            ++ [.handleFunc "/", .logPrintln "Server started at :8080",
                .listenAndServe ":8080"] ++ rest) := by
  have hr := recordMetrics_normal (env.Meter "system-metrics-dashboard")
  constructor
  · intro e he
    rw [he] at hr
    rw [main_of_registration_error env e he]
    refine ⟨hr, rfl, ?_, ?_⟩ <;> simp [initCalls, registrationCalls]
  · intro hn
    rw [hn] at hr
    rw [main_of_registration_ok env hn, hr]
    exact ⟨rfl, _, rfl⟩

/-- C6 at a meter that rejects the registration and at one that accepts
it. -/
theorem main_registration_meters :
    ((main (envOf rejectingMeter)).outcome = .exited 1 ∧
        ∀ addr, Startup.listenAndServe addr ∉ (main (envOf rejectingMeter)).trace) ∧
      ∃ rest, (main (envOf goodMeter)).trace
        = initCalls ++ (recordMetrics goodMeter).trace
          ++ [.handleFunc "/", .logPrintln "Server started at :8080",
              .listenAndServe ":8080"] ++ rest :=
  ⟨⟨((main_registration (envOf rejectingMeter)).1 "callback rejected" rfl).2.1,
      ((main_registration (envOf rejectingMeter)).1 "callback rejected" rfl).2.2.2⟩,
    ((main_registration (envOf goodMeter)).2 rfl).2⟩

/-- C7: whenever `getMetrics` returns a snapshot, the callback records the
three observations of it and returns a nil error; the callback never returns
a non-nil error; and on every invocation it records either none or all three
of the observations. -/
theorem recordMetricsCallback_succeeds (cpuGauge memGauge diskGauge : Gauge) (os : OSStat) :
    (∀ m, (getMetrics os).outcome = .returned m →
        (recordMetricsCallback cpuGauge memGauge diskGauge os).outcome = .returned none ∧
        (recordMetricsCallback cpuGauge memGauge diskGauge os).trace.filter Effect.isObservation
          = [.observeFloat64 cpuGauge m.CPUUsage,
              .observeFloat64 memGauge (Float.ofNat m.MemoryUsed),
              .observeFloat64 diskGauge (Float.ofNat m.DiskUsed)]) ∧
      (∀ e, (recordMetricsCallback cpuGauge memGauge diskGauge os).outcome
        ≠ .returned (some e)) ∧
      (((recordMetricsCallback cpuGauge memGauge diskGauge os).trace.filter
          Effect.isObservation).length = 0 ∨
        ((recordMetricsCallback cpuGauge memGauge diskGauge os).trace.filter
          Effect.isObservation).length = 3) := by
  rcases getMetrics_outcome os with ⟨m, hm⟩ | ⟨p, hp⟩
  · rw [recordMetricsCallback_returned cpuGauge memGauge diskGauge os m hm]
    refine ⟨?_, ?_, Or.inr rfl⟩
    · intro m₂ hm₂
      rw [hm] at hm₂
      cases hm₂
      exact ⟨rfl, rfl⟩
    · intro e h
      cases h
  · rw [recordMetricsCallback_panicked cpuGauge memGauge diskGauge os p hp]
    refine ⟨?_, ?_, Or.inl rfl⟩
    · intro m hm
      rw [hp] at hm
      cases hm
    · intro e h
      cases h

/-- C7 at the scenario of the specification: the callback returns a nil
error after exactly the three observations of the snapshot. -/
theorem recordMetricsCallback_succeeds_scenario :
    (recordMetricsCallback ⟨1⟩ ⟨2⟩ ⟨3⟩ scenarioOS).outcome = .returned none ∧
      (recordMetricsCallback ⟨1⟩ ⟨2⟩ ⟨3⟩ scenarioOS).trace.filter Effect.isObservation
        = [.observeFloat64 ⟨1⟩ 42.5, .observeFloat64 ⟨2⟩ (Float.ofNat 2048),
            .observeFloat64 ⟨3⟩ (Float.ofNat 100)] :=
  (recordMetricsCallback_succeeds ⟨1⟩ ⟨2⟩ ⟨3⟩ scenarioOS).1 _
    (getMetrics_of_success scenarioOS 42.5 [] (2048 * 2 ^ 20) (8192 * 2 ^ 20) (100 * 2 ^ 30)
      (500 * 2 ^ 30) rfl rfl rfl)

/-- C8: every `getMetrics` call makes exactly three queries, in this order:
one CPU query over a one-second window, aggregate; one virtual-memory query;
one disk-usage query for the path "/".  Its result depends only on the
answers to these three: two calls that get the same three answers give the
same result, and a call that follows another call queries again and ends as
it would have ended alone. -/
theorem getMetrics_fresh (os os₂ : OSStat) :
    (getMetrics os).trace
        = [.cpuPercent 1000000000 false, .virtualMemory, .diskUsage "/"] ∧
      (os.Percent timeSecond false = os₂.Percent timeSecond false →
        os.VirtualMemory = os₂.VirtualMemory → os.Usage "/" = os₂.Usage "/" →
        getMetrics os = getMetrics os₂) ∧
      (∀ m, (getMetrics os).outcome = .returned m →
        (getMetrics os >>= fun _ => getMetrics os₂)
          = ⟨(getMetrics os).trace ++ (getMetrics os₂).trace, (getMetrics os₂).outcome⟩) := by
  refine ⟨?_, ?_, ?_⟩
  · rw [getMetrics_normal]
    rfl
  · intro h1 h2 h3
    rw [getMetrics_normal, getMetrics_normal os₂, h1, h2, h3]
  · intro m hm
    show Run.bind _ _ = _
    simp only [Run.bind, hm]

/-- C8 at two hosts that agree on the three queried answers only. -/
theorem getMetrics_fresh_otherOS :
    (getMetrics scenarioOS).trace
        = [.cpuPercent 1000000000 false, .virtualMemory, .diskUsage "/"] ∧
      getMetrics scenarioOS = getMetrics otherOS :=
  ⟨(getMetrics_fresh scenarioOS otherOS).1,
    (getMetrics_fresh scenarioOS otherOS).2.1 rfl rfl rfl⟩

/-- C9: the unit conversion is a floor.  For every successful response the
reported memory values `M` satisfy `M * 2^20 ≤ bytes < (M + 1) * 2^20`, the
reported disk values `D` satisfy `D * 2^30 ≤ bytes < (D + 1) * 2^30`, and a
byte count below one unit is reported as 0. -/
theorem getMetrics_floor (os : OSStat) (c : Float) (cs : List Float) (mu mt du dt : Nat)
    (hc : os.Percent timeSecond false = (c :: cs, none))
    (hm : os.VirtualMemory = (some { Total := mt, Used := mu }, none))
    (hd : os.Usage "/" = (some { Total := dt, Used := du }, none)) :
    ∃ m, (getMetrics os).outcome = .returned m ∧
      (m.MemoryUsed * 2 ^ 20 ≤ mu ∧ mu < (m.MemoryUsed + 1) * 2 ^ 20) ∧
      (m.MemoryTotal * 2 ^ 20 ≤ mt ∧ mt < (m.MemoryTotal + 1) * 2 ^ 20) ∧
      (m.DiskUsed * 2 ^ 30 ≤ du ∧ du < (m.DiskUsed + 1) * 2 ^ 30) ∧
      (m.DiskTotal * 2 ^ 30 ≤ dt ∧ dt < (m.DiskTotal + 1) * 2 ^ 30) ∧
      (mu < 2 ^ 20 → m.MemoryUsed = 0) ∧ (mt < 2 ^ 20 → m.MemoryTotal = 0) ∧
      (du < 2 ^ 30 → m.DiskUsed = 0) ∧ (dt < 2 ^ 30 → m.DiskTotal = 0) := by
  refine ⟨_, getMetrics_of_success os c cs mu mt du dt hc hm hd, ?_⟩
  have floor : ∀ (n k : Nat), 0 < k → n / k * k ≤ n ∧ n < (n / k + 1) * k := by
    intro n k hk
    refine ⟨Nat.div_mul_le_self n k, ?_⟩
    have h := Nat.div_add_mod n k
    have h2 := Nat.mod_lt n hk
    have h3 : (n / k + 1) * k = k * (n / k) + k := by ring
    omega
  have hM : (0 : Nat) < 2 ^ 20 := by norm_num
  have hG : (0 : Nat) < 2 ^ 30 := by norm_num
  exact ⟨floor mu _ hM, floor mt _ hM, floor du _ hG, floor dt _ hG,
    fun h => Nat.div_eq_of_lt h, fun h => Nat.div_eq_of_lt h,
    fun h => Nat.div_eq_of_lt h, fun h => Nat.div_eq_of_lt h⟩

/-- C9 at byte counts next to a unit boundary: `2^20 - 1` bytes of memory and
`2^30 - 1` bytes of disk are reported as 0. -/
theorem getMetrics_floor_boundary :
    ∃ m, (getMetrics boundaryOS).outcome = .returned m ∧
      (m.MemoryUsed * 2 ^ 20 ≤ 2 ^ 20 - 1 ∧ 2 ^ 20 - 1 < (m.MemoryUsed + 1) * 2 ^ 20) ∧
      (m.MemoryTotal * 2 ^ 20 ≤ 3 * 2 ^ 20 + 5 ∧
        3 * 2 ^ 20 + 5 < (m.MemoryTotal + 1) * 2 ^ 20) ∧
      (m.DiskUsed * 2 ^ 30 ≤ 2 ^ 30 - 1 ∧ 2 ^ 30 - 1 < (m.DiskUsed + 1) * 2 ^ 30) ∧
      (m.DiskTotal * 2 ^ 30 ≤ 2 ^ 31 + 9 ∧ 2 ^ 31 + 9 < (m.DiskTotal + 1) * 2 ^ 30) ∧
      (2 ^ 20 - 1 < 2 ^ 20 → m.MemoryUsed = 0) ∧ (3 * 2 ^ 20 + 5 < 2 ^ 20 → m.MemoryTotal = 0) ∧
      (2 ^ 30 - 1 < 2 ^ 30 → m.DiskUsed = 0) ∧ (2 ^ 31 + 9 < 2 ^ 30 → m.DiskTotal = 0) :=
  getMetrics_floor boundaryOS 0.5 [] (2 ^ 20 - 1) (3 * 2 ^ 20 + 5) (2 ^ 30 - 1) (2 ^ 31 + 9)
    rfl rfl rfl

/-- C10: when the CPU query returns a non-empty list and the memory and disk
queries each return a stat record (with or without an error beside it),
`getMetrics` returns a `Metrics`, it reaches no panic, and the `CPUUsage` it
returns is the first element of the CPU list. -/
theorem getMetrics_safe (os : OSStat)
    (hc : (os.Percent timeSecond false).1 ≠ [])
    (hm : os.VirtualMemory.1 ≠ none)
    (hd : (os.Usage "/").1 ≠ none) :
    ∃ m, (getMetrics os).outcome = .returned m ∧
      (∀ p, (getMetrics os).outcome ≠ .panicked p) ∧
      (os.Percent timeSecond false).1.head? = some m.CPUUsage := by
  rw [getMetrics_normal]
  rcases hp : (os.Percent timeSecond false).1 with _ | ⟨c, cs⟩
  · exact absurd hp hc
  · rcases hv : os.VirtualMemory.1 with _ | vm
    · exact absurd hv hm
    · rcases hu : (os.Usage "/").1 with _ | du
      · exact absurd hu hd
      · exact ⟨_, rfl, fun p h => by simp [literalOutcome] at h, rfl⟩

/-- C10 at a host whose answers carry values and errors at once. -/
theorem getMetrics_safe_noisy :
    ∃ m, (getMetrics noisyOS).outcome = .returned m ∧
      (∀ p, (getMetrics noisyOS).outcome ≠ .panicked p) ∧
      (noisyOS.Percent timeSecond false).1.head? = some m.CPUUsage :=
  getMetrics_safe noisyOS (by simp [noisyOS]) (by simp [noisyOS]) (by simp [noisyOS])

end SystemMetricsDashboard
